import Mathlib

/-
Shallow embedding of src/app.py (IBM RXN Chemistry Protocol Extractor).

The application is a single-file browser front end.  The embedding models
the per-session state kept in st.session_state, the extract-button handler
(lines 299-399), the clear-button handler (lines 292-296), the Clear
History button (lines 136-139), the export formatters txt_data and
md_data (lines 362-381), the history display (lines 402-412), and the
masked credential display (line 152).  Strings are Lean String; the
remote call rxn_wrapper.paragraph_to_actions is an oracle parameter of
type Except String ExtractionResult (ok = returned dict, error = raised
exception message).
-/

namespace IBMRxn

/-- The structured response of the remote service.  The handler reads the
ordered action list from the field named actions (line 312,
result.get with default empty list); the rest of the dict is opaque and
not consulted, so the model keeps only that field. -/
structure ExtractionResult where
  actions : List String
deriving Repr, DecidableEq, Inhabited

/-- One entry of st.session_state.extraction_history, mirroring the dict
appended at lines 339-344. -/
structure HistoryEntry where
  timestamp : String
  input : String
  steps_count : Nat
  actions : List String
deriving Repr, DecidableEq, Inhabited

/-- The per-session mutable state touched by the handlers under study:
extraction_history (line 82), last_result (line 309, optional because it
can be deleted at line 295), and example_text (line 88), which feeds the
value of the input text area (line 277). -/
structure SessionState where
  extraction_history : List HistoryEntry
  last_result : Option ExtractionResult
  example_text : String
deriving Repr, DecidableEq, Inhabited

/-- Python str.strip() as used at line 300: remove whitespace from both
ends of the string, modelled directly on the character list. -/
def pyStrip (s : String) : String :=
  String.mk (((s.data.dropWhile Char.isWhitespace).reverse.dropWhile
    Char.isWhitespace).reverse)

/-- Python enumerate(actions, i): pairs each element with its index
starting from i. -/
def pyEnumerate1 : Nat → List String → List (Nat × String)
  | _, [] => []
  | i, a :: rest => (i, a) :: pyEnumerate1 (i + 1) rest

/-- The per-step strings of the plain-text export (line 363, the list
comprehension inside the join). -/
def txtSegments (actions : List String) : List String :=
  (pyEnumerate1 1 actions).map (fun p => "Step " ++ toString p.1 ++ ": " ++ p.2)

/-- txt_data at line 363: step strings joined by a blank line. -/
def txt_data (actions : List String) : String :=
  String.intercalate "\n\n" (txtSegments actions)

/-- The per-step strings of the markdown export (line 374, the list
comprehension inside the join). -/
def mdSegments (actions : List String) : List String :=
  (pyEnumerate1 1 actions).map (fun p => "**Step " ++ toString p.1 ++ ":** " ++ p.2)

/-- md_data at line 374: header plus step strings joined by blank lines. -/
def md_data (actions : List String) : String :=
  "# Extracted Protocol Steps\n\n" ++ String.intercalate "\n\n" (mdSegments actions)

/-- masked_key at line 152: api_key[:10] + "..." + api_key[-10:].  The
Python slice api_key[-10:] keeps the last (at most) 10 characters, which
is drop (length - 10) with truncated subtraction. -/
def maskedKey (api_key : String) : String :=
  api_key.take 10 ++ "..." ++ api_key.drop (api_key.length - 10)

/-- The history display at line 407: reversed(extraction_history[-5:]),
the last at most 5 entries, most recent first. -/
def displayedHistory (history : List HistoryEntry) : List HistoryEntry :=
  (history.drop (history.length - 5)).reverse

/-- Clear-button handler, lines 292-296: reset example_text and delete
last_result; extraction_history is not touched. -/
def clearHandler (s : SessionState) : SessionState :=
  { s with example_text := "", last_result := none }

/-- Clear History button, lines 136-139: empty the history list. -/
def clearHistoryHandler (s : SessionState) : SessionState :=
  { s with extraction_history := [] }

/-- Observable effects of one run of the extract-button handler, beside
the state update: which UI elements were emitted and whether the remote
call was reached. -/
structure HandlerOutput where
  state : SessionState
  networkCalled : Bool
  warningShown : Bool
  successShown : Option Nat
  stepBoxes : List (Nat × String)
  infoNoSteps : Bool
  errorBox : Option String
  troubleshootingShown : Bool
  downloadsOffered : Bool
  txtDownload : Option String
  mdDownload : Option String
deriving Repr, DecidableEq, Inhabited

/-- Extract-button handler, lines 299-399.  input_text is the text-area
value, remote the outcome the API call would produce, enable_history the
sidebar checkbox (line 134), now the formatted timestamp of line 340.
Branch order follows the source: empty-after-strip check (line 300),
API call inside try (line 306), store last_result (line 309), read
actions (line 312), then the non-empty branch (success box, step boxes,
history append when enabled, three download buttons) or the empty branch
(info message, line 384); a raised exception yields the error box and
the troubleshooting info (lines 386-399) with no state change. -/
def extractHandler (s : SessionState) (input_text : String)
    (remote : Except String ExtractionResult)
    (enable_history : Bool) (now : String) : HandlerOutput :=
  if pyStrip input_text = "" then
    { state := s, networkCalled := false, warningShown := true,
      successShown := none, stepBoxes := [], infoNoSteps := false,
      errorBox := none, troubleshootingShown := false,
      downloadsOffered := false, txtDownload := none, mdDownload := none }
  else
    match remote with
    | Except.error e =>
      { state := s, networkCalled := true, warningShown := false,
        successShown := none, stepBoxes := [], infoNoSteps := false,
        errorBox := some e, troubleshootingShown := true,
        downloadsOffered := false, txtDownload := none, mdDownload := none }
    | Except.ok result =>
      let s1 : SessionState := { s with last_result := some result }
      let actions := result.actions
      if actions.isEmpty then
        { state := s1, networkCalled := true, warningShown := false,
          successShown := none, stepBoxes := [], infoNoSteps := true,
          errorBox := none, troubleshootingShown := false,
          downloadsOffered := false, txtDownload := none, mdDownload := none }
      else
        let entry : HistoryEntry :=
          { timestamp := now,
            input := if input_text.length > 100
                     then input_text.take 100 ++ "..." else input_text,
            steps_count := actions.length,
            actions := actions }
        let s2 : SessionState :=
          if enable_history
          then { s1 with extraction_history := s1.extraction_history ++ [entry] }
          else s1
        { state := s2, networkCalled := true, warningShown := false,
          successShown := some actions.length,
          stepBoxes := pyEnumerate1 1 actions,
          infoNoSteps := false, errorBox := none,
          troubleshootingShown := false,
          downloadsOffered := true,
          txtDownload := some (txt_data actions),
          mdDownload := some (md_data actions) }

theorem pyEnumerate1_length (i : Nat) (l : List String) :
    (pyEnumerate1 i l).length = l.length := by
  induction l generalizing i with
  | nil => rfl
  | cons a rest ih => simp [pyEnumerate1, ih]

theorem pyEnumerate1_map_getElem (f : Nat × String → String)
    (i k : Nat) (l : List String) :
    ((pyEnumerate1 i l).map f)[k]? = (l[k]?).map (fun a => f (i + k, a)) := by
  induction l generalizing i k with
  | nil => simp [pyEnumerate1]
  | cons a rest ih =>
    cases k with
    | zero => simp [pyEnumerate1]
    | succ k =>
      simp only [pyEnumerate1, List.map_cons, List.getElem?_cons_succ, ih (i + 1) k]
      have hik : i + 1 + k = i + (k + 1) := by omega
      rw [hik]

/-- C1: for every non-empty action list of length N, the plain-text
export is the join, by blank lines, of exactly N segments, the k-th
segment (0-based k) being the string Step (k+1) followed by a colon, a
space and the k-th action, so step lines are 1-indexed and preserve the
input order. -/
theorem txt_export_steps (actions : List String) (h : actions ≠ []) :
    txt_data actions = String.intercalate "\n\n" (txtSegments actions) ∧
    (txtSegments actions).length = actions.length ∧
    ∀ k, (txtSegments actions)[k]? =
      (actions[k]?).map (fun a => "Step " ++ toString (k + 1) ++ ": " ++ a) := by
  refine ⟨rfl, ?_, ?_⟩
  · rw [txtSegments, List.length_map, pyEnumerate1_length]
  · intro k
    rw [txtSegments,
      pyEnumerate1_map_getElem (fun p => "Step " ++ toString p.1 ++ ": " ++ p.2)
        1 k actions, Nat.add_comm 1 k]

theorem txt_export_steps_w :
    (["mix", "stir"] ≠ ([] : List String)) ∧
    txt_data ["mix", "stir"] = String.intercalate "\n\n" (txtSegments ["mix", "stir"]) ∧
    (txtSegments ["mix", "stir"]).length = 2 ∧
    (txtSegments ["mix", "stir"])[1]? = some "Step 2: stir" := by
  have h : (["mix", "stir"] ≠ ([] : List String)) := by decide
  have h2 := txt_export_steps ["mix", "stir"] h
  refine ⟨h, h2.1, h2.2.1, ?_⟩
  rw [h2.2.2 1]
  rfl

/-- C6: for every non-empty action list of length N, the markdown export
is the fixed header followed by the join, by blank lines, of exactly N
segments, the k-th segment (0-based k) being the bold Step (k+1) marker
followed by the k-th action, order preserved. -/
theorem md_export_steps (actions : List String) (h : actions ≠ []) :
    md_data actions =
      "# Extracted Protocol Steps\n\n" ++
        String.intercalate "\n\n" (mdSegments actions) ∧
    (mdSegments actions).length = actions.length ∧
    ∀ k, (mdSegments actions)[k]? =
      (actions[k]?).map (fun a => "**Step " ++ toString (k + 1) ++ ":** " ++ a) := by
  refine ⟨rfl, ?_, ?_⟩
  · rw [mdSegments, List.length_map, pyEnumerate1_length]
  · intro k
    rw [mdSegments,
      pyEnumerate1_map_getElem (fun p => "**Step " ++ toString p.1 ++ ":** " ++ p.2)
        1 k actions, Nat.add_comm 1 k]

theorem md_export_steps_w :
    (["mix", "stir"] ≠ ([] : List String)) ∧
    md_data ["mix", "stir"] =
      "# Extracted Protocol Steps\n\n" ++
        String.intercalate "\n\n" (mdSegments ["mix", "stir"]) ∧
    (mdSegments ["mix", "stir"]).length = 2 ∧
    (mdSegments ["mix", "stir"])[0]? = some "**Step 1:** mix" := by
  have h : (["mix", "stir"] ≠ ([] : List String)) := by decide
  have h2 := md_export_steps ["mix", "stir"] h
  refine ⟨h, h2.1, h2.2.1, ?_⟩
  rw [h2.2.2 0]
  rfl

/-- C2: for every successful remote call whose returned action list is
empty, the informational no-steps message is produced, no HistoryEntry
is appended to the history collection, and no export or download
controls are offered. -/
theorem empty_result_no_history (s : SessionState) (input now : String)
    (enable_history : Bool) (r : ExtractionResult)
    (hne : ¬ pyStrip input = "") (hemp : r.actions = []) :
    (extractHandler s input (Except.ok r) enable_history now).infoNoSteps = true ∧
    (extractHandler s input (Except.ok r) enable_history now).state.extraction_history
      = s.extraction_history ∧
    (extractHandler s input (Except.ok r) enable_history now).downloadsOffered = false ∧
    (extractHandler s input (Except.ok r) enable_history now).txtDownload = none ∧
    (extractHandler s input (Except.ok r) enable_history now).mdDownload = none := by
  simp [extractHandler, hne, hemp]

theorem empty_result_no_history_w :
    (¬ pyStrip "add water" = "") ∧
    (ExtractionResult.mk []).actions = [] ∧
    (extractHandler ⟨[], some ⟨["old"]⟩, "e"⟩ "add water"
      (Except.ok ⟨[]⟩) true "t").infoNoSteps = true ∧
    (extractHandler ⟨[], some ⟨["old"]⟩, "e"⟩ "add water"
      (Except.ok ⟨[]⟩) true "t").state.extraction_history = [] ∧
    (extractHandler ⟨[], some ⟨["old"]⟩, "e"⟩ "add water"
      (Except.ok ⟨[]⟩) true "t").downloadsOffered = false ∧
    (extractHandler ⟨[], some ⟨["old"]⟩, "e"⟩ "add water"
      (Except.ok ⟨[]⟩) true "t").txtDownload = none ∧
    (extractHandler ⟨[], some ⟨["old"]⟩, "e"⟩ "add water"
      (Except.ok ⟨[]⟩) true "t").mdDownload = none := by
  have hne : ¬ pyStrip "add water" = "" := by decide
  have h2 := empty_result_no_history ⟨[], some ⟨["old"]⟩, "e"⟩ "add water" "t"
    true ⟨[]⟩ hne rfl
  exact ⟨hne, rfl, h2.1, h2.2.1, h2.2.2.1, h2.2.2.2.1, h2.2.2.2.2⟩

/-- C3: for every submitted input whose stripped text is empty, the
handler makes no network call, produces the local validation warning,
and leaves the whole session state unchanged. -/
theorem whitespace_input_rejected (s : SessionState) (input now : String)
    (enable_history : Bool) (remote : Except String ExtractionResult)
    (h : pyStrip input = "") :
    (extractHandler s input remote enable_history now).networkCalled = false ∧
    (extractHandler s input remote enable_history now).warningShown = true ∧
    (extractHandler s input remote enable_history now).state = s := by
  simp [extractHandler, h]

theorem whitespace_input_rejected_w :
    (pyStrip "   " = "") ∧
    (extractHandler ⟨[⟨"t", "i", 1, ["a"]⟩], some ⟨["a"]⟩, "x"⟩ "   "
      (Except.error "never sent") true "t").networkCalled = false ∧
    (extractHandler ⟨[⟨"t", "i", 1, ["a"]⟩], some ⟨["a"]⟩, "x"⟩ "   "
      (Except.error "never sent") true "t").warningShown = true ∧
    (extractHandler ⟨[⟨"t", "i", 1, ["a"]⟩], some ⟨["a"]⟩, "x"⟩ "   "
      (Except.error "never sent") true "t").state
      = ⟨[⟨"t", "i", 1, ["a"]⟩], some ⟨["a"]⟩, "x"⟩ := by
  have h : pyStrip "   " = "" := by decide
  have h2 := whitespace_input_rejected ⟨[⟨"t", "i", 1, ["a"]⟩], some ⟨["a"]⟩, "x"⟩
    "   " "t" true (Except.error "never sent") h
  exact ⟨h, h2.1, h2.2.1, h2.2.2⟩

/-- C4: for every remote call that raises, the handler shows the error
box carrying the underlying message together with the static
troubleshooting guidance, and leaves both the history collection and the
stored last result unchanged. -/
theorem remote_failure_atomic (s : SessionState) (input now : String)
    (enable_history : Bool) (e : String) (h : ¬ pyStrip input = "") :
    (extractHandler s input (Except.error e) enable_history now).errorBox = some e ∧
    (extractHandler s input (Except.error e) enable_history now).troubleshootingShown
      = true ∧
    (extractHandler s input (Except.error e) enable_history now).state.extraction_history
      = s.extraction_history ∧
    (extractHandler s input (Except.error e) enable_history now).state.last_result
      = s.last_result := by
  simp [extractHandler, h]

theorem remote_failure_atomic_w :
    (¬ pyStrip "add water" = "") ∧
    (extractHandler ⟨[⟨"t", "i", 1, ["a"]⟩], some ⟨["a"]⟩, "x"⟩ "add water"
      (Except.error "401 Unauthorized") true "t").errorBox = some "401 Unauthorized" ∧
    (extractHandler ⟨[⟨"t", "i", 1, ["a"]⟩], some ⟨["a"]⟩, "x"⟩ "add water"
      (Except.error "401 Unauthorized") true "t").troubleshootingShown = true ∧
    (extractHandler ⟨[⟨"t", "i", 1, ["a"]⟩], some ⟨["a"]⟩, "x"⟩ "add water"
      (Except.error "401 Unauthorized") true "t").state.extraction_history
      = [⟨"t", "i", 1, ["a"]⟩] ∧
    (extractHandler ⟨[⟨"t", "i", 1, ["a"]⟩], some ⟨["a"]⟩, "x"⟩ "add water"
      (Except.error "401 Unauthorized") true "t").state.last_result = some ⟨["a"]⟩ := by
  have h : ¬ pyStrip "add water" = "" := by decide
  have h2 := remote_failure_atomic ⟨[⟨"t", "i", 1, ["a"]⟩], some ⟨["a"]⟩, "x"⟩
    "add water" "t" true "401 Unauthorized" h
  exact ⟨h, h2.1, h2.2.1, h2.2.2.1, h2.2.2.2⟩

/-- C5: the history display shows at most 5 entries, most recent first
(the i-th displayed entry is the (length - 1 - i)-th stored entry),
however many were appended, and Clear History empties the underlying
collection and hence the display. -/
theorem history_display_bound_and_clear (hist : List HistoryEntry) (s : SessionState) :
    (displayedHistory hist).length ≤ 5 ∧
    (∀ i, i < (displayedHistory hist).length →
      (displayedHistory hist)[i]? = hist[hist.length - 1 - i]?) ∧
    (clearHistoryHandler s).extraction_history = [] ∧
    displayedHistory (clearHistoryHandler s).extraction_history = [] := by
  refine ⟨?_, ?_, rfl, rfl⟩
  · rw [displayedHistory, List.length_reverse, List.length_drop]
    omega
  · intro i hi
    have hi2 : i < (hist.drop (hist.length - 5)).length := by
      rw [displayedHistory, List.length_reverse] at hi
      exact hi
    rw [displayedHistory, List.getElem?_reverse hi2, List.getElem?_drop]
    congr 1
    rw [List.length_drop] at hi2 ⊢
    omega

theorem history_display_bound_and_clear_w :
    (0 < (displayedHistory
      [⟨"t1", "", 0, []⟩, ⟨"t2", "", 0, []⟩, ⟨"t3", "", 0, []⟩,
       ⟨"t4", "", 0, []⟩, ⟨"t5", "", 0, []⟩, ⟨"t6", "", 0, []⟩]).length) ∧
    (displayedHistory
      [⟨"t1", "", 0, []⟩, ⟨"t2", "", 0, []⟩, ⟨"t3", "", 0, []⟩,
       ⟨"t4", "", 0, []⟩, ⟨"t5", "", 0, []⟩, ⟨"t6", "", 0, []⟩]).length ≤ 5 ∧
    (displayedHistory
      [⟨"t1", "", 0, []⟩, ⟨"t2", "", 0, []⟩, ⟨"t3", "", 0, []⟩,
       ⟨"t4", "", 0, []⟩, ⟨"t5", "", 0, []⟩, ⟨"t6", "", 0, []⟩])[0]?
      = some ⟨"t6", "", 0, []⟩ ∧
    (clearHistoryHandler ⟨[⟨"t1", "", 0, []⟩], none, ""⟩).extraction_history = [] := by
  have h2 := history_display_bound_and_clear
    [⟨"t1", "", 0, []⟩, ⟨"t2", "", 0, []⟩, ⟨"t3", "", 0, []⟩,
     ⟨"t4", "", 0, []⟩, ⟨"t5", "", 0, []⟩, ⟨"t6", "", 0, []⟩]
    ⟨[⟨"t1", "", 0, []⟩], none, ""⟩
  have h0 : 0 < (displayedHistory
      [⟨"t1", "", 0, []⟩, ⟨"t2", "", 0, []⟩, ⟨"t3", "", 0, []⟩,
       ⟨"t4", "", 0, []⟩, ⟨"t5", "", 0, []⟩, ⟨"t6", "", 0, []⟩]).length := by decide
  refine ⟨h0, h2.1, ?_, h2.2.2.1⟩
  rw [h2.2.1 0 h0]
  rfl

/-- C7: every successful non-empty extraction with history enabled
appends exactly one HistoryEntry whose input preview is the first 100
characters of the input followed by an ellipsis when the input is longer
than 100 characters and the input itself otherwise, whose step count is
the length of the action list, and which records the full ordered action
list. -/
theorem success_appends_history_entry (s : SessionState) (input now : String)
    (r : ExtractionResult) (h1 : ¬ pyStrip input = "") (h2 : r.actions ≠ []) :
    (extractHandler s input (Except.ok r) true now).state.extraction_history =
      s.extraction_history ++
        [{ timestamp := now,
           input := if input.length > 100 then input.take 100 ++ "..." else input,
           steps_count := r.actions.length,
           actions := r.actions }] := by
  have h2b : r.actions.isEmpty = false := by
    simp [List.isEmpty_iff, h2]
  simp [extractHandler, h1, h2b]

theorem success_appends_history_entry_w :
    (¬ pyStrip "add water" = "") ∧
    ((ExtractionResult.mk ["ADD water", "STIR"]).actions ≠ []) ∧
    (extractHandler ⟨[⟨"t0", "p", 1, ["x"]⟩], none, ""⟩ "add water"
      (Except.ok ⟨["ADD water", "STIR"]⟩) true "t1").state.extraction_history =
      [⟨"t0", "p", 1, ["x"]⟩, ⟨"t1", "add water", 2, ["ADD water", "STIR"]⟩] := by
  have h1 : ¬ pyStrip "add water" = "" := by decide
  have h2 : (ExtractionResult.mk ["ADD water", "STIR"]).actions ≠ [] := by decide
  have h3 := success_appends_history_entry ⟨[⟨"t0", "p", 1, ["x"]⟩], none, ""⟩
    "add water" "t1" ⟨["ADD water", "STIR"]⟩ h1 h2
  refine ⟨h1, h2, ?_⟩
  rw [h3]
  decide

/-- C8: the clear action empties the current input text and removes the
stored last result, while the history collection is untouched. -/
theorem clear_discards_input_and_result (s : SessionState) :
    (clearHandler s).example_text = "" ∧
    (clearHandler s).last_result = none ∧
    (clearHandler s).extraction_history = s.extraction_history :=
  ⟨rfl, rfl, rfl⟩

/-- C9: the masked credential display consists, character for character,
of the first at most 10 characters of the key, the three-dot ellipsis,
and the last at most 10 characters of the key, so no character strictly
between position 10 and position length - 10 appears in it. -/
theorem masked_key_reveals_only_ends (k : String) :
    (maskedKey k).data =
      k.data.take 10 ++ ('.' :: '.' :: '.' :: []) ++
        k.data.drop (k.data.length - 10) := by
  simp [maskedKey, String.data_take, String.data_drop]

/-- C10: every successful remote call overwrites the stored last result
with the returned result, also when the returned action list is empty,
so a SucceededEmpty outcome replaces a previously stored non-empty
result. -/
theorem ok_result_overwrites_last_result (s : SessionState) (input now : String)
    (enable_history : Bool) (r : ExtractionResult) (h : ¬ pyStrip input = "") :
    (extractHandler s input (Except.ok r) enable_history now).state.last_result
      = some r := by
  rw [extractHandler, if_neg h]
  cases hr : r.actions.isEmpty <;> cases enable_history <;> simp [hr]

theorem ok_result_overwrites_last_result_w :
    (¬ pyStrip "add water" = "") ∧
    (extractHandler ⟨[], some ⟨["old step"]⟩, ""⟩ "add water"
      (Except.ok ⟨[]⟩) true "t").state.last_result = some ⟨[]⟩ :=
  ⟨by decide,
   ok_result_overwrites_last_result ⟨[], some ⟨["old step"]⟩, ""⟩ "add water"
     "t" true ⟨[]⟩ (by decide)⟩

end IBMRxn
